import Mathlib

/-!
Verification of the AWX client core of autosphere-mcp-golang.

This file gives a shallow embedding, in Lean, of the parts of the Go
source that the specification claims are about:

* the TTL cache (internal/cache, file part_008);
* template resolution (internal/awx/client.go GetJobTemplateByName and
  internal/awx/job_launcher.go resolveTemplate);
* the launch pipeline (internal/awx/job_launcher.go Launch,
  validateLaunchPermissions, executeLaunchWithRetry, isNonRetryableError);
* job-status caching (internal/awx/client.go GetJob);
* template creation and template-list caching (internal/awx/client.go
  CreateJobTemplate, GetJobTemplates);
* the create_job_template argument coercion
  (internal/handlers/automation.go CreateJobTemplate).

Wall-clock instants and durations are modelled as natural numbers (the Go
code uses nanosecond-resolution time.Time / time.Duration; the unit is
irrelevant to the claims, seconds are used where the code names seconds).
HTTP calls are modelled as oracle parameters: a backend response, a probe
status, or a per-attempt outcome function.
-/

deriving instance DecidableEq for Except

namespace Autosphere

/-! ### Go strings.Contains

Embedding of Go strings.Contains(s, substr): true iff substr occurs as a
contiguous substring of s.  All strings involved in the claims are ASCII,
so char-level containment coincides with Go byte-level containment. -/

/-- listStartsWith l pat is true iff pat is a prefix of l. -/
def listStartsWith : List Char → List Char → Bool
  | _, [] => true
  | [], _ :: _ => false
  | c :: cs, p :: ps => c == p && listStartsWith cs ps

/-- listContainsSub l pat is true iff pat occurs contiguously inside l. -/
def listContainsSub : List Char → List Char → Bool
  | [], pat => pat.isEmpty
  | c :: cs, pat => listStartsWith (c :: cs) pat || listContainsSub cs pat

/-- strContains s pat embeds Go strings.Contains(s, pat). -/
def strContains (s pat : String) : Bool :=
  listContainsSub s.toList pat.toList

/-! ### Go strconv.Atoi -/

/-- digitsToNat l parses a non-empty all-decimal-digit list. -/
def digitsToNat (l : List Char) : Option Nat :=
  match l with
  | [] => none
  | _ :: _ =>
    l.foldl
      (fun acc c =>
        acc.bind fun n => if c.isDigit then some (n * 10 + (c.toNat - 48)) else none)
      (some 0)

/-- atoi embeds Go strconv.Atoi: optional sign, then decimal digits.
(Int-range overflow is not modelled; no claim involves it.) -/
def atoi (s : String) : Option Int :=
  match s.toList with
  | '+' :: rest => (digitsToNat rest).map Int.ofNat
  | '-' :: rest => (digitsToNat rest).map fun n => -(Int.ofNat n)
  | l => (digitsToNat l).map Int.ofNat

/-! ### The TTL cache (internal/cache, source file part_008)

The Go cache is a map[string]*cacheItem plus a Statistics record.  The map
is modelled as an association list with at most one entry per key (Set
replaces), which is observationally the Go map.  The sweeper goroutine is
modelled by its body removeExpired; the claims do not involve the ticker.
The Go value type is interface; here the cache is typed by a parameter. -/

structure Cache (α : Type) where
  items : List (String × α × Nat)
  hits : Nat
  misses : Nat
  sets : Nat
  evictions : Nat
  currentSize : Nat
deriving Repr

/-- NewCache: empty map, zeroed statistics. -/
def Cache.New (α : Type) : Cache α :=
  ⟨[], 0, 0, 0, 0, 0⟩

/-- assocFind items k: lookup of key k in the association list (Go map read). -/
def assocFind {α : Type} (items : List (String × α × Nat)) (k : String) :
    Option (α × Nat) :=
  (items.find? fun e => e.1 == k).map fun e => e.2

/-- assocErase items k: Go delete(items, k). -/
def assocErase {α : Type} (items : List (String × α × Nat)) (k : String) :
    List (String × α × Nat) :=
  items.filter fun e => !(e.1 == k)

/-- Cache.Get (part_008 lines 47-65): a present, unexpired entry is a hit
and returns the value; a missing entry, or one with time.Now().After
(expiration) - strictly later than the expiration - is a miss and returns
nothing.  The returned cache carries the statistics update. -/
def Cache.Get {α : Type} (c : Cache α) (key : String) (now : Nat) :
    Option α × Cache α :=
  match assocFind c.items key with
  | none => (none, { c with misses := c.misses + 1 })
  | some (v, expiration) =>
    if now > expiration then
      (none, { c with misses := c.misses + 1 })
    else
      (some v, { c with hits := c.hits + 1 })

/-- Cache.Set (part_008 lines 68-79): overwrite the entry, expiration :=
now + ttl, count one set, update the size gauge to the map size. -/
def Cache.Set {α : Type} (c : Cache α) (key : String) (value : α)
    (ttl now : Nat) : Cache α :=
  let items := (key, value, now + ttl) :: assocErase c.items key
  { c with items := items, sets := c.sets + 1, currentSize := items.length }

/-- Cache.Delete (part_008 lines 82-90): remove the key if present and
update the size gauge; a miss changes nothing. -/
def Cache.Delete {α : Type} (c : Cache α) (key : String) : Cache α :=
  match assocFind c.items key with
  | none => c
  | some _ =>
    let items := assocErase c.items key
    { c with items := items, currentSize := items.length }

/-- Cache.Clear (part_008 lines 93-99): fresh empty map, size gauge 0.
The hit/miss/set/eviction counters are untouched. -/
def Cache.Clear {α : Type} (c : Cache α) : Cache α :=
  { c with items := [], currentSize := 0 }

/-- Cache.removeExpired (part_008 lines 133-151): the sweeper body; delete
every entry whose expiration is strictly past and add the count to the
evictions counter (and refresh the size gauge) only when any was removed. -/
def Cache.removeExpired {α : Type} (c : Cache α) (now : Nat) : Cache α :=
  let remaining := c.items.filter fun e => !(now > e.2.2)
  let evicted := c.items.length - remaining.length
  if evicted > 0 then
    { c with items := remaining, evictions := c.evictions + evicted,
             currentSize := remaining.length }
  else c

/-- CacheStats snapshot record (part_008 lines 154-161).  HitRate is a
float64 in Go; it is modelled as the exact rational hits/(hits+misses)*100
(0 when no lookups), which the claims never inspect numerically. -/
structure CacheStats where
  hits : Nat
  misses : Nat
  sets : Nat
  evictions : Nat
  currentSize : Nat
  hitRate : ℚ
deriving Repr

/-- Cache.GetStats / Statistics.snapshot (part_008 lines 199-217). -/
def Cache.GetStats {α : Type} (c : Cache α) : CacheStats :=
  let total := c.hits + c.misses
  { hits := c.hits, misses := c.misses, sets := c.sets,
    evictions := c.evictions, currentSize := c.currentSize,
    hitRate := if total > 0 then (c.hits : ℚ) / (total : ℚ) * 100 else 0 }

/-! ### AWX data types (internal/awx, source file part_003)

Job fields Started/Finished (time pointers) and Elapsed (float64) are not
touched by any claim and are omitted from the embedding. -/

structure JobTemplate where
  id : Int
  name : String
  description : String
  inventory : Int
  project : Int
  playbook : String
deriving DecidableEq, Repr

structure Job where
  id : Int
  name : String
  status : String
  jobTemplate : Int
  url : String
deriving DecidableEq, Repr

structure JobLaunchResponse where
  job : Int
  id : Int
  jobTemplate : Int
  url : String
  relatedJobTemplate : String
deriving DecidableEq, Repr

/-- Values held by the AWX client cache.  The Go cache stores interface
values and each reader type-asserts; the variants model the two asserted
types the claims involve (a template list and a job). -/
inductive AWXCacheValue where
  | templates (ts : List JobTemplate)
  | job (j : Job)
deriving DecidableEq, Repr

/-! ### Template resolution

GetJobTemplateByName (client.go lines 321-350) matches by exact name
first, then - only when no name matched - parses the identifier with
Atoi and matches by id, and otherwise fails enumerating the templates
as "name (ID: id)" (unquoted), comma-joined.

resolveTemplate (job_launcher.go lines 86-112) does the opposite order:
it first parses the identifier with Atoi and matches by id, then falls
back to exact name, and otherwise fails enumerating the templates as
"'name' (ID: id)" (single-quoted), comma-joined. -/

/-- GetJobTemplateByName, client.go lines 321-350. -/
def GetJobTemplateByName (templates : List JobTemplate) (nameOrID : String) :
    Except String JobTemplate :=
  match templates.find? fun t => t.name == nameOrID with
  | some t => .ok t
  | none =>
    match atoi nameOrID with
    | some id =>
      match templates.find? fun t => t.id == id with
      | some t => .ok t
      | none =>
        .error ("job template \x27" ++ nameOrID ++
          "\x27 not found. Available templates: " ++
          String.intercalate ", "
            (templates.map fun t => t.name ++ " (ID: " ++ toString t.id ++ ")"))
    | none =>
      .error ("job template \x27" ++ nameOrID ++
        "\x27 not found. Available templates: " ++
        String.intercalate ", "
          (templates.map fun t => t.name ++ " (ID: " ++ toString t.id ++ ")"))

/-- resolveTemplate fallback: the by-name loop and the not-found error of
job_launcher.go lines 100-111. -/
def resolveTemplateByName (templates : List JobTemplate) (nameOrID : String) :
    Except String (Int × String) :=
  match templates.find? fun t => t.name == nameOrID with
  | some t => .ok (t.id, t.name)
  | none =>
    .error ("template not found. Available templates: " ++
      String.intercalate ", "
        (templates.map fun t =>
          "\x27" ++ t.name ++ "\x27 (ID: " ++ toString t.id ++ ")"))

/-- resolveTemplate, job_launcher.go lines 86-112, on an already fetched
template list: id match first (when Atoi succeeds), then name match. -/
def resolveTemplate (templates : List JobTemplate) (nameOrID : String) :
    Except String (Int × String) :=
  match atoi nameOrID with
  | some id =>
    match templates.find? fun t => t.id == id with
    | some t => .ok (t.id, t.name)
    | none => resolveTemplateByName templates nameOrID
  | none => resolveTemplateByName templates nameOrID

/-- resolveTemplate including the GetJobTemplates fetch, whose failure is
wrapped (job_launcher.go lines 87-90). -/
def resolveTemplateRun (templatesFetch : Except String (List JobTemplate))
    (nameOrID : String) : Except String (Int × String) :=
  match templatesFetch with
  | .error e => .error ("failed to fetch job templates: " ++ e)
  | .ok ts => resolveTemplate ts nameOrID

/-! ### The launch pipeline (internal/awx/job_launcher.go) -/

structure LaunchJobOptions where
  templateNameOrID : String
  extraVars : List (String × String)
  inventory : String
  limit : String
  tags : String
  skipTags : String
  jobType : String
  verbosity : Int
  diffMode : Bool
  timeout : Nat
deriving Repr

structure LaunchResult where
  jobID : Int
  status : String
  url : String
  message : String
  launchType : String
deriving DecidableEq, Repr

/-- isNonRetryableError, job_launcher.go lines 272-288. -/
def isNonRetryableError (e : String) : Bool :=
  if strContains e "403" || strContains e "insufficient permissions" then true
  else if strContains e "400" || strContains e "not found" then true
  else if strContains e "401" || strContains e "authentication" then true
  else false

/-- Trace of one run of the retry loop: the returned value, how many POST
attempts were performed, and the total seconds slept (a 2-second sleep
happens exactly between two consecutive attempts). -/
structure RetryTrace where
  result : Except String JobLaunchResponse
  attemptsMade : Nat
  sleepSeconds : Nat
deriving Repr

/-- Loop body of executeLaunchWithRetry (job_launcher.go lines 176-204).
remaining counts the attempts still allowed (including the current one),
attempt is the 1-based attempt number.  An attempt outcome comes from the
oracle.  Success returns at once; a non-retryable error breaks out; a
retryable error on the last allowed attempt falls out of the loop; all
loop exits with an error wrap the last error text. -/
def executeLaunchWithRetryAux (oracle : Nat → Except String JobLaunchResponse) :
    Nat → Nat → String → Nat → Nat → RetryTrace
  | 0, _, lastErr, made, slept =>
    ⟨.error ("all launch attempts failed, last error: " ++ lastErr), made, slept⟩
  | remaining + 1, attempt, _, made, slept =>
    match oracle attempt with
    | .ok r => ⟨.ok r, made + 1, slept⟩
    | .error e =>
      if isNonRetryableError e then
        ⟨.error ("all launch attempts failed, last error: " ++ e), made + 1, slept⟩
      else if remaining == 0 then
        ⟨.error ("all launch attempts failed, last error: " ++ e), made + 1, slept⟩
      else
        executeLaunchWithRetryAux oracle remaining (attempt + 1) e (made + 1) (slept + 2)

/-- executeLaunchWithRetry: maxRetries = 3, retryDelay = 2 seconds. -/
def executeLaunchWithRetry (oracle : Nat → Except String JobLaunchResponse) :
    RetryTrace :=
  executeLaunchWithRetryAux oracle 3 1 "" 0 0

/-- Permission-probe outcome: a transport error or an HTTP status with a
response body. -/
inductive ProbeResult where
  | transportError (e : String)
  | status (code : Nat) (body : String)
deriving Repr

/-- validateLaunchPermissions, job_launcher.go lines 114-143: 403 is the
dedicated insufficient-permissions failure, any other status of at least
400 fails with the status and body, anything below 400 passes. -/
def validateLaunchPermissions (probe : ProbeResult) : Except String Unit :=
  match probe with
  | .transportError e => .error ("failed to validate launch permissions: " ++ e)
  | .status code body =>
    if code == 403 then
      .error "insufficient permissions to launch this job template"
    else if code ≥ 400 then
      .error ("validation failed with status " ++ toString code ++ ": " ++ body)
    else
      .ok ()

/-- createSuccessMessage, job_launcher.go lines 258-270. -/
def createSuccessMessage (templateName : String) (jobID : Int)
    (options : LaunchJobOptions) : String :=
  let m := "Successfully launched job " ++ toString jobID ++
    " using template \x27" ++ templateName ++ "\x27"
  let m := if options.extraVars.length > 0 then
      m ++ " with " ++ toString options.extraVars.length ++ " extra variables"
    else m
  if options.limit != "" then m ++ " limited to hosts: " ++ options.limit else m

/-- Launch, job_launcher.go lines 45-84.  The three HTTP interactions are
oracle parameters: the template-list fetch, the permission probe, and the
per-attempt launch POST outcome.  The second component of the result is
the number of launch POST attempts performed (payload assembly in
prepareLaunchRequest does not influence any claim and the per-attempt
timeout only parameterises the per-attempt HTTP client). -/
def Launch (options : LaunchJobOptions)
    (templatesFetch : Except String (List JobTemplate))
    (probe : ProbeResult)
    (oracle : Nat → Except String JobLaunchResponse) :
    Except String LaunchResult × Nat :=
  if options.templateNameOrID == "" then
    (.error "template name or ID is required", 0)
  else
    match resolveTemplateRun templatesFetch options.templateNameOrID with
    | .error e =>
      (.error ("failed to resolve template \x27" ++ options.templateNameOrID ++
        "\x27: " ++ e), 0)
    | .ok (templateID, templateName) =>
      match validateLaunchPermissions probe with
      | .error e =>
        (.error ("launch validation failed for template " ++
          toString templateID ++ ": " ++ e), 0)
      | .ok _ =>
        match (executeLaunchWithRetry oracle).result with
        | .error e =>
          (.error ("failed to launch job for template " ++
            toString templateID ++ ": " ++ e),
           (executeLaunchWithRetry oracle).attemptsMade)
        | .ok response =>
          (.ok { jobID := response.job, status := "pending",
                 url := response.url, launchType := "api",
                 message := createSuccessMessage templateName response.job options },
           (executeLaunchWithRetry oracle).attemptsMade)

/-! ### Client operations over the cache (internal/awx/client.go)

Backend HTTP responses are oracle parameters of type Except String.  Each
operation returns, besides its value, whether it consulted the backend,
and the cache state it leaves behind (the Go client mutates its cache
field in place). -/

/-- GetJob cache-hit test, client.go line 542: only the three listed
terminal statuses are served from the cache. -/
def isTerminalForCache (s : String) : Bool :=
  s == "successful" || s == "failed" || s == "canceled"

/-- Cache key for a job, client.go line 536. -/
def jobCacheKey (jobID : Int) : String :=
  "awx:job:" ++ toString jobID

structure GetJobResult where
  job : Except String Job
  fetched : Bool
  cache : Cache AWXCacheValue
deriving Repr

/-- GetJob fetch path, client.go lines 555-576: on backend success the
backend URL is synthesized and the job is cached with TTL 10 seconds when
its status is running or pending and 300 seconds (5 minutes) otherwise;
on backend failure nothing is written. -/
def getJobFetch (c : Cache AWXCacheValue) (now : Nat)
    (backend : Except String Job) (jobID : Int) (baseURL : String) :
    GetJobResult :=
  match backend with
  | .error e => ⟨.error e, true, c⟩
  | .ok j =>
    let j := { j with url := baseURL ++ "/#/jobs/playbook/" ++ toString jobID }
    let cacheTTL :=
      if j.status == "running" || j.status == "pending" then 10 else 300
    ⟨.ok j, true, c.Set (jobCacheKey jobID) (.job j) cacheTTL now⟩

/-- GetJob, client.go lines 534-577: an unexpired cached job is returned
without a backend fetch only when its status is terminal; any other cache
outcome (absent, expired, wrong cached type, or a non-terminal cached
status) falls through to the backend fetch. -/
def GetJob (c : Cache AWXCacheValue) (now : Nat)
    (backend : Except String Job) (jobID : Int) (baseURL : String) :
    GetJobResult :=
  match c.Get (jobCacheKey jobID) now with
  | (some (.job job), c1) =>
    if isTerminalForCache job.status then ⟨.ok job, false, c1⟩
    else getJobFetch c1 now backend jobID baseURL
  | (some _, c1) => getJobFetch c1 now backend jobID baseURL
  | (none, c1) => getJobFetch c1 now backend jobID baseURL

structure ListTemplatesResult where
  result : Except String (List JobTemplate)
  fetched : Bool
  cache : Cache AWXCacheValue
deriving Repr

/-- GetJobTemplates, client.go lines 290-319: an unexpired cached template
list is returned without a backend fetch; otherwise the list is fetched
and cached under awx:job_templates for 300 seconds (5 minutes). -/
def GetJobTemplates (c : Cache AWXCacheValue) (now : Nat)
    (backend : Except String (List JobTemplate)) : ListTemplatesResult :=
  match c.Get "awx:job_templates" now with
  | (some (.templates ts), c1) => ⟨.ok ts, false, c1⟩
  | (some _, c1) =>
    match backend with
    | .error e => ⟨.error e, true, c1⟩
    | .ok ts => ⟨.ok ts, true, c1.Set "awx:job_templates" (.templates ts) 300 now⟩
  | (none, c1) =>
    match backend with
    | .error e => ⟨.error e, true, c1⟩
    | .ok ts => ⟨.ok ts, true, c1.Set "awx:job_templates" (.templates ts) 300 now⟩

/-- CreateJobTemplate, client.go lines 592-606: on backend failure the
wrapped error is returned and the cache is untouched; on success the
awx:job_templates entry is invalidated. -/
def CreateJobTemplate (c : Cache AWXCacheValue)
    (backend : Except String JobTemplate) :
    Except String JobTemplate × Cache AWXCacheValue :=
  match backend with
  | .error e => (.error ("failed to create job template: " ++ e), c)
  | .ok t => (.ok t, c.Delete "awx:job_templates")

/-! ### create_job_template argument coercion
(internal/handlers/automation.go lines 458-522)

The tool-call argument bag is modelled as a partial map from argument
name to string value; RequireString is a lookup that the handler turns
into its own error message when the argument is absent, GetString is a
lookup with a default.  A returned ok value is exactly the argument
record the handler passes to the service facade. -/

structure CreateJobTemplateArgs where
  name : String
  inventory : Int
  project : Int
  playbook : String
  description : String
  jobType : String
  verbosity : Int
deriving DecidableEq, Repr

/-- CreateJobTemplate handler coercion, automation.go lines 458-507: the
four required arguments are checked (inventory and project must parse as
integers); description and job_type take defaults; verbosity defaults to
"0" and, when Atoi succeeds, is stored with no range check at all (an
unparseable verbosity is silently left at 0).  An ok result reaches the
service facade. -/
def handlerCreateJobTemplate (get : String → Option String) :
    Except String CreateJobTemplateArgs :=
  match get "name" with
  | none => .error "name is required"
  | some name =>
    match get "inventory" with
    | none => .error "inventory ID is required"
    | some inventoryStr =>
      match atoi inventoryStr with
      | none => .error "inventory must be a valid integer ID"
      | some inventory =>
        match get "project" with
        | none => .error "project ID is required"
        | some projectStr =>
          match atoi projectStr with
          | none => .error "project must be a valid integer ID"
          | some project =>
            match get "playbook" with
            | none => .error "playbook path is required"
            | some playbook =>
              let description := (get "description").getD ""
              let jobType := (get "job_type").getD "run"
              let verbosityStr := (get "verbosity").getD "0"
              let verbosity :=
                match atoi verbosityStr with
                | some v => v
                | none => 0
              .ok ⟨name, inventory, project, playbook, description, jobType,
                   verbosity⟩

/-! ### Helper lemmas -/

lemma assocFind_Set_self {α : Type} (c : Cache α) (k : String) (v : α)
    (ttl now : Nat) :
    assocFind (c.Set k v ttl now).items k = some (v, now + ttl) := by
  simp [Cache.Set, assocFind, List.find?]

lemma assocFind_erase_self {α : Type} (items : List (String × α × Nat))
    (k : String) : assocFind (assocErase items k) k = none := by
  induction items with
  | nil => rfl
  | cons e rest ih =>
    by_cases h : e.1 = k
    · simp only [assocErase] at ih ⊢
      simp [h, ih]
    · simp only [assocErase] at ih ⊢
      simp [assocFind, List.find?, h, ih]

lemma assocFind_Delete_self {α : Type} (c : Cache α) (k : String) :
    assocFind (c.Delete k).items k = none := by
  unfold Cache.Delete
  cases h : assocFind c.items k with
  | none => simp only [h]
  | some v => simp [h, assocFind_erase_self]

lemma listStartsWith_append (l l' pat : List Char)
    (h : listStartsWith l pat = true) :
    listStartsWith (l ++ l') pat = true := by
  induction pat generalizing l with
  | nil => simp [listStartsWith]
  | cons p ps ih =>
    cases l with
    | nil => simp [listStartsWith] at h
    | cons c cs =>
      simp only [listStartsWith, Bool.and_eq_true] at h
      simpa [listStartsWith, h.1] using ih cs h.2

lemma listContainsSub_nil_pat (l : List Char) :
    listContainsSub l [] = true := by
  cases l with
  | nil => rfl
  | cons c cs => simp [listContainsSub, listStartsWith]

lemma listContainsSub_append_left (l l' pat : List Char)
    (h : listContainsSub l pat = true) :
    listContainsSub (l ++ l') pat = true := by
  induction l with
  | nil =>
    simp only [listContainsSub, List.isEmpty_iff] at h
    subst h
    simp only [List.nil_append]
    exact listContainsSub_nil_pat l'
  | cons c cs ih =>
    simp only [listContainsSub, Bool.or_eq_true] at h ⊢
    rcases h with h | h
    · exact Or.inl (listStartsWith_append (c :: cs) l' pat h)
    · exact Or.inr (ih h)

lemma listContainsSub_append_right (l l' pat : List Char)
    (h : listContainsSub l' pat = true) :
    listContainsSub (l ++ l') pat = true := by
  induction l with
  | nil => simpa using h
  | cons c cs ih =>
    simp only [List.cons_append, listContainsSub, Bool.or_eq_true]
    exact Or.inr ih

lemma strContains_append_of_left (s t pat : String)
    (h : strContains s pat = true) :
    strContains (s ++ t) pat = true := by
  obtain ⟨a⟩ := s; obtain ⟨b⟩ := t
  exact listContainsSub_append_left a b pat.toList h

lemma strContains_append_of_right (s t pat : String)
    (h : strContains t pat = true) :
    strContains (s ++ t) pat = true := by
  obtain ⟨a⟩ := s; obtain ⟨b⟩ := t
  exact listContainsSub_append_right a b pat.toList h

/-! ### C10 -/

/-- C10: Cache.Clear empties the map and zeroes the size gauge, and the
hits, misses, sets and evictions counters of the statistics snapshot are
the same immediately before and immediately after the Clear. -/
theorem C10_clear_preserves_counters {α : Type} (c : Cache α) :
    (Cache.Clear c).GetStats.hits = c.GetStats.hits ∧
    (Cache.Clear c).GetStats.misses = c.GetStats.misses ∧
    (Cache.Clear c).GetStats.sets = c.GetStats.sets ∧
    (Cache.Clear c).GetStats.evictions = c.GetStats.evictions ∧
    (Cache.Clear c).GetStats.currentSize = 0 ∧
    (Cache.Clear c).items = [] := by
  simp [Cache.Clear, Cache.GetStats]

/-! ### C3 -/

/-- C3 counterexample: Set("k", 42, ttl 5) at time 0; a Get at time
s' = 5 = 0 + 5 returns the value as present, although s' < s + t fails -
the claimed strict-inequality expiry boundary does not match Cache.Get,
whose miss condition is now strictly after the expiration. -/
theorem C3_strict_boundary_counterexample :
    ((((Cache.New Nat).Set "k" 42 5 0).Get "k" 5).1 = some 42) ∧
    ¬ (5 < 0 + 5) := by
  exact ⟨rfl, by decide⟩

/-- C3 (amended): after Set(k,v,t) at time s, a Get(k) at time s' returns
(v, present) iff s' ≤ s + t; a Get that finds the entry expired reports
absent (it does not return the stale value) and counts one miss. -/
theorem C3_ttl_honored {α : Type} (c : Cache α) (k : String) (v : α)
    (t s s' : Nat) :
    (((c.Set k v t s).Get k s').1 = some v ↔ s' ≤ s + t) ∧
    (s + t < s' →
      ((c.Set k v t s).Get k s').1 = none ∧
      ((c.Set k v t s).Get k s').2.misses = (c.Set k v t s).misses + 1) := by
  have hfind := assocFind_Set_self c k v t s
  constructor
  · unfold Cache.Get
    rw [hfind]
    by_cases h : s' > s + t
    · simp only [if_pos h]
      simp [Nat.lt_iff_add_one_le] at h ⊢
      omega
    · simp only [if_neg h]
      simp [Nat.not_lt.mp h]
  · intro h
    unfold Cache.Get
    rw [hfind]
    simp [show s' > s + t from h]

/-- C3 witness: the amended theorem applied at a concrete expired read
(t = 3 set at s = 10, read at s' = 20). -/
theorem C3_ttl_honored_witness :
    ((((Cache.New Nat).Set "k" 7 3 10).Get "k" 20).1 = none) ∧
    ((((Cache.New Nat).Set "k" 7 3 10).Get "k" 20).2.misses =
      ((Cache.New Nat).Set "k" 7 3 10).misses + 1) :=
  (C3_ttl_honored (Cache.New Nat) "k" 7 3 10 20).2 (by decide)

/-! ### C6 -/

/-- C6: every successful Launch returns a LaunchResult whose Status field
is the string "pending", whatever job state the backend launch response
reported. -/
theorem C6_launch_status_pending (options : LaunchJobOptions)
    (templatesFetch : Except String (List JobTemplate)) (probe : ProbeResult)
    (oracle : Nat → Except String JobLaunchResponse)
    (r : LaunchResult) (n : Nat)
    (h : Launch options templatesFetch probe oracle = (.ok r, n)) :
    r.status = "pending" := by
  unfold Launch at h
  split at h
  · simp at h
  · split at h
    · simp at h
    · split at h
      · simp at h
      · split at h
        · simp at h
        · simp only [Prod.mk.injEq, Except.ok.injEq] at h
          rw [← h.1]

/-! ### C1 -/

lemma retryAux_succ (oracle : Nat → Except String JobLaunchResponse)
    (n attempt : Nat) (lastErr : String) (made slept : Nat) :
    executeLaunchWithRetryAux oracle (n + 1) attempt lastErr made slept =
      match oracle attempt with
      | .ok r => ⟨.ok r, made + 1, slept⟩
      | .error e =>
        if isNonRetryableError e then
          ⟨.error ("all launch attempts failed, last error: " ++ e), made + 1, slept⟩
        else if n == 0 then
          ⟨.error ("all launch attempts failed, last error: " ++ e), made + 1, slept⟩
        else
          executeLaunchWithRetryAux oracle n (attempt + 1) e (made + 1) (slept + 2) :=
  rfl

lemma retryAux_attempts_le (oracle : Nat → Except String JobLaunchResponse)
    (remaining attempt : Nat) (lastErr : String) (made slept : Nat) :
    (executeLaunchWithRetryAux oracle remaining attempt lastErr made slept).attemptsMade ≤
      made + remaining := by
  induction remaining generalizing attempt lastErr made slept with
  | zero => simp [executeLaunchWithRetryAux]
  | succ n ih =>
    rw [retryAux_succ]
    cases h : oracle attempt with
    | ok r => simp
    | error e =>
      by_cases hnr : isNonRetryableError e
      · simp [hnr]
      · cases n with
        | zero => simp [hnr]
        | succ m =>
          simp only [hnr, Bool.false_eq_true, if_false, Nat.add_one_ne_zero,
            beq_iff_eq, if_neg]
          have := ih (attempt + 1) e (made + 1) (slept + 2)
          omega

lemma retryAux_sleep_eq (oracle : Nat → Except String JobLaunchResponse)
    (n attempt : Nat) (lastErr : String) (made slept : Nat) :
    (executeLaunchWithRetryAux oracle (n + 1) attempt lastErr made slept).sleepSeconds +
      2 * (made + 1) =
    slept +
      2 * (executeLaunchWithRetryAux oracle (n + 1) attempt lastErr made slept).attemptsMade := by
  induction n generalizing attempt lastErr made slept with
  | zero =>
    rw [retryAux_succ]
    cases h : oracle attempt with
    | ok r => simp
    | error e =>
      by_cases hnr : isNonRetryableError e <;> simp [hnr]
  | succ m ih =>
    rw [retryAux_succ]
    cases h : oracle attempt with
    | ok r => simp
    | error e =>
      by_cases hnr : isNonRetryableError e
      · simp [hnr]
      · simp only [hnr, Bool.false_eq_true, if_false, Nat.add_one_ne_zero,
          beq_iff_eq, if_neg]
        have := ih (attempt + 1) e (made + 1) (slept + 2)
        omega

/-- C1: for every sequence of launch-POST outcomes, executeLaunchWithRetry
performs at most 3 attempts; the total sleeping is exactly one fixed
2-second delay between each pair of consecutive attempts; and as soon as
an attempt fails with a non-retryable error text (after only retryable
failures), the loop stops at that attempt and returns the last error. -/
theorem C1_retry_policy (oracle : Nat → Except String JobLaunchResponse) :
    (executeLaunchWithRetry oracle).attemptsMade ≤ 3 ∧
    (executeLaunchWithRetry oracle).sleepSeconds =
      2 * ((executeLaunchWithRetry oracle).attemptsMade - 1) ∧
    ∀ k e, 1 ≤ k → k ≤ 3 → oracle k = .error e →
      isNonRetryableError e = true →
      (∀ j, 1 ≤ j → j < k →
        ∃ ej, oracle j = .error ej ∧ isNonRetryableError ej = false) →
      (executeLaunchWithRetry oracle).attemptsMade = k ∧
      (executeLaunchWithRetry oracle).result =
        .error ("all launch attempts failed, last error: " ++ e) := by
  refine ⟨?_, ?_, ?_⟩
  · have := retryAux_attempts_le oracle 3 1 "" 0 0
    simpa [executeLaunchWithRetry] using this
  · have h := retryAux_sleep_eq oracle 2 1 "" 0 0
    simp only [show (2 : Nat) + 1 = 3 from rfl] at h
    simp only [executeLaunchWithRetry]
    omega
  · intro k e hk1 hk3 hk hnr hprev
    interval_cases k
    · simp [executeLaunchWithRetry, executeLaunchWithRetryAux, hk, hnr]
    · obtain ⟨e1, h1, hr1⟩ := hprev 1 (by omega) (by omega)
      simp [executeLaunchWithRetry, executeLaunchWithRetryAux, h1, hr1, hk, hnr]
    · obtain ⟨e1, h1, hr1⟩ := hprev 1 (by omega) (by omega)
      obtain ⟨e2, h2, hr2⟩ := hprev 2 (by omega) (by omega)
      simp [executeLaunchWithRetry, executeLaunchWithRetryAux, h1, hr1, h2, hr2,
        hk, hnr]

/-- Outcome sequence for the C1 witness: a retryable transport failure on
attempt 1, then a non-retryable 403 error on attempt 2. -/
def c1Oracle : Nat → Except String JobLaunchResponse := fun attempt =>
  if attempt == 1 then .error "HTTP request failed: connection refused"
  else .error "AWX API error: status 403 - Forbidden"

/-- C1 witness: the retry policy applied to c1Oracle stops after the
non-retryable second attempt and returns its error. -/
theorem C1_retry_policy_witness :
    (executeLaunchWithRetry c1Oracle).attemptsMade = 2 ∧
    (executeLaunchWithRetry c1Oracle).result =
      .error ("all launch attempts failed, last error: " ++
        "AWX API error: status 403 - Forbidden") := by
  refine (C1_retry_policy c1Oracle).2.2 2 "AWX API error: status 403 - Forbidden"
    (by decide) (by decide) rfl (by decide) ?_
  intro j hj1 hj2
  have hj : j = 1 := by omega
  subst hj
  exact ⟨"HTTP request failed: connection refused", rfl, by decide⟩

/-! ### C6 -/

/-- Template list used by the concrete witnesses: the single template of
the specification scenarios. -/
def demoTemplates : List JobTemplate :=
  [⟨7, "deploy", "", 1, 1, "site.yml"⟩]

/-- Launch options naming the template "deploy", used by the witnesses. -/
def demoOptions : LaunchJobOptions :=
  ⟨"deploy", [], "", "", "", "", "", 0, false, 0⟩

/-- Backend launch response used by the witnesses. -/
def demoResponse : JobLaunchResponse :=
  ⟨1234, 0, 7, "http://awx/api/v2/jobs/1234/", ""⟩

/-- Launch-POST oracle that succeeds at once, used by the witnesses. -/
def demoOracle : Nat → Except String JobLaunchResponse := fun _ => .ok demoResponse

/-- C6 witness: a concrete successful Launch, whose result status the
theorem shows to be "pending". -/
theorem C6_launch_status_pending_witness :
    ({ jobID := 1234, status := "pending",
       url := "http://awx/api/v2/jobs/1234/",
       message := "Successfully launched job 1234 using template \x27deploy\x27",
       launchType := "api" } : LaunchResult).status = "pending" :=
  C6_launch_status_pending demoOptions (.ok demoTemplates) (.status 200 "")
    demoOracle _ 1 (by decide)

/-! ### C4 -/

/-- C4: when the permission probe returns status 403, Launch fails with
the permanent insufficient-permissions error and performs zero launch
POST attempts (the hypotheses say the request got as far as the probe:
a non-empty identifier that resolved to a template). -/
theorem C4_probe_403_blocks_launch (options : LaunchJobOptions)
    (templatesFetch : Except String (List JobTemplate)) (body : String)
    (oracle : Nat → Except String JobLaunchResponse)
    (templateID : Int) (templateName : String)
    (hne : options.templateNameOrID ≠ "")
    (hres : resolveTemplateRun templatesFetch options.templateNameOrID =
      .ok (templateID, templateName)) :
    Launch options templatesFetch (.status 403 body) oracle =
      (.error ("launch validation failed for template " ++ toString templateID ++
        ": " ++ "insufficient permissions to launch this job template"), 0) := by
  have h0 : (options.templateNameOrID == "") = false :=
    beq_eq_false_iff_ne.mpr hne
  simp only [Launch, h0, Bool.false_eq_true, if_false, hres]
  rfl

/-- C4 witness: a concrete 403-probed launch of the "deploy" template
fails permanently with zero POST attempts. -/
theorem C4_probe_403_blocks_launch_witness :
    Launch demoOptions (.ok demoTemplates) (.status 403 "") demoOracle =
      (.error ("launch validation failed for template " ++ toString (7 : Int) ++
        ": " ++ "insufficient permissions to launch this job template"), 0) :=
  C4_probe_403_blocks_launch demoOptions (.ok demoTemplates) "" demoOracle 7
    "deploy" (by decide) (by decide)

/-! ### C2 -/

lemma getJobFetch_fetched (c : Cache AWXCacheValue) (now : Nat)
    (backend : Except String Job) (jobID : Int) (baseURL : String) :
    (getJobFetch c now backend jobID baseURL).fetched = true := by
  unfold getJobFetch
  cases backend <;> rfl

lemma getJobFetch_cache (c : Cache AWXCacheValue) (now : Nat) (jobID : Int)
    (baseURL : String) (j : Job) :
    assocFind (getJobFetch c now (.ok j) jobID baseURL).cache.items
        (jobCacheKey jobID) =
      some (.job { j with url := baseURL ++ "/#/jobs/playbook/" ++ toString jobID },
        now + (if j.status == "running" || j.status == "pending" then 10 else 300)) := by
  unfold getJobFetch
  exact assocFind_Set_self c (jobCacheKey jobID) _ _ now

lemma GetJob_eval_none (c : Cache AWXCacheValue) (now : Nat)
    (backend : Except String Job) (jobID : Int) (baseURL : String)
    (hfind : assocFind c.items (jobCacheKey jobID) = none) :
    GetJob c now backend jobID baseURL =
      getJobFetch { c with misses := c.misses + 1 } now backend jobID baseURL := by
  unfold GetJob
  simp only [Cache.Get, hfind]

lemma GetJob_eval_expired (c : Cache AWXCacheValue) (now : Nat)
    (backend : Except String Job) (jobID : Int) (baseURL : String)
    (v : AWXCacheValue) (exp : Nat)
    (hfind : assocFind c.items (jobCacheKey jobID) = some (v, exp))
    (hexp : now > exp) :
    GetJob c now backend jobID baseURL =
      getJobFetch { c with misses := c.misses + 1 } now backend jobID baseURL := by
  unfold GetJob
  simp only [Cache.Get, hfind, if_pos hexp]

lemma GetJob_eval_hit_templates (c : Cache AWXCacheValue) (now : Nat)
    (backend : Except String Job) (jobID : Int) (baseURL : String)
    (ts : List JobTemplate) (exp : Nat)
    (hfind : assocFind c.items (jobCacheKey jobID) = some (.templates ts, exp))
    (hexp : ¬ now > exp) :
    GetJob c now backend jobID baseURL =
      getJobFetch { c with hits := c.hits + 1 } now backend jobID baseURL := by
  unfold GetJob
  simp only [Cache.Get, hfind, if_neg hexp]

lemma GetJob_eval_hit_job (c : Cache AWXCacheValue) (now : Nat)
    (backend : Except String Job) (jobID : Int) (baseURL : String)
    (j : Job) (exp : Nat)
    (hfind : assocFind c.items (jobCacheKey jobID) = some (.job j, exp))
    (hexp : ¬ now > exp) :
    GetJob c now backend jobID baseURL =
      if isTerminalForCache j.status then
        ⟨.ok j, false, { c with hits := c.hits + 1 }⟩
      else getJobFetch { c with hits := c.hits + 1 } now backend jobID baseURL := by
  unfold GetJob
  simp only [Cache.Get, hfind, if_neg hexp]

/-- C2: GetJob serves a job from the cache without a backend fetch exactly
when an unexpired cached copy exists whose status is terminal (successful,
failed or canceled); whenever it does fetch and the backend answers, the
fetched job (with its synthesized URL) is cached with TTL 10 seconds when
its status is running or pending and 300 seconds (5 minutes) otherwise. -/
theorem C2_job_cache_policy (c : Cache AWXCacheValue) (now : Nat)
    (backend : Except String Job) (jobID : Int) (baseURL : String) :
    ((GetJob c now backend jobID baseURL).fetched = false ↔
      ∃ j exp, assocFind c.items (jobCacheKey jobID) = some (.job j, exp) ∧
        now ≤ exp ∧ isTerminalForCache j.status = true) ∧
    (∀ j, backend = .ok j →
      (GetJob c now backend jobID baseURL).fetched = true →
      assocFind (GetJob c now backend jobID baseURL).cache.items
          (jobCacheKey jobID) =
        some (.job { j with url := baseURL ++ "/#/jobs/playbook/" ++ toString jobID },
          now + (if j.status == "running" || j.status == "pending" then 10 else 300))) := by
  rcases hfind : assocFind c.items (jobCacheKey jobID) with _ | ⟨v, exp⟩
  · rw [GetJob_eval_none c now backend jobID baseURL hfind]
    refine ⟨?_, ?_⟩
    · rw [getJobFetch_fetched]
      simp only [Bool.true_eq_false, false_iff]
      rintro ⟨j, e, he, -, -⟩
      cases he
    · intro j hb _
      subst hb
      exact getJobFetch_cache _ now jobID baseURL j
  · by_cases hexp : now > exp
    · rw [GetJob_eval_expired c now backend jobID baseURL v exp hfind hexp]
      refine ⟨?_, ?_⟩
      · rw [getJobFetch_fetched]
        simp only [Bool.true_eq_false, false_iff]
        rintro ⟨j, e, he, hle, -⟩
        cases he
        omega
      · intro j hb _
        subst hb
        exact getJobFetch_cache _ now jobID baseURL j
    · cases v with
      | templates ts =>
        rw [GetJob_eval_hit_templates c now backend jobID baseURL ts exp hfind hexp]
        refine ⟨?_, ?_⟩
        · rw [getJobFetch_fetched]
          simp only [Bool.true_eq_false, false_iff]
          rintro ⟨j, e, he, -, -⟩
          cases he
        · intro j hb _
          subst hb
          exact getJobFetch_cache _ now jobID baseURL j
      | job jc =>
        rw [GetJob_eval_hit_job c now backend jobID baseURL jc exp hfind hexp]
        by_cases hterm : isTerminalForCache jc.status
        · rw [if_pos hterm]
          refine ⟨?_, ?_⟩
          · simp only [true_iff]
            exact ⟨jc, exp, rfl, Nat.le_of_not_lt hexp, hterm⟩
          · intro j hb hf
            cases hf
        · rw [if_neg hterm]
          refine ⟨?_, ?_⟩
          · rw [getJobFetch_fetched]
            simp only [Bool.true_eq_false, false_iff]
            rintro ⟨j, e, he, -, ht⟩
            cases he
            exact hterm ht
          · intro j hb _
            subst hb
            exact getJobFetch_cache _ now jobID baseURL j

/-- Terminal cached job for the C2 witness. -/
def c2CachedJob : Job := ⟨1234, "demo", "successful", 7, "u"⟩

/-- Running backend job for the C2 witness. -/
def c2RunningJob : Job := ⟨42, "demo", "running", 7, ""⟩

/-- Cache holding the terminal job, set at time 0 with TTL 300. -/
def c2Cache : Cache AWXCacheValue :=
  (Cache.New AWXCacheValue).Set (jobCacheKey 1234) (.job c2CachedJob) 300 0

/-- C2 witness: the cached terminal job at time 5 is served without a
fetch, and a cold GetJob of a running job caches it with TTL 10. -/
theorem C2_job_cache_policy_witness :
    (GetJob c2Cache 5 (.ok c2RunningJob) 1234 "http://awx").fetched = false ∧
    assocFind (GetJob (Cache.New AWXCacheValue) 0 (.ok c2RunningJob) 42
        "http://awx").cache.items (jobCacheKey 42) =
      some (.job { c2RunningJob with
          url := "http://awx" ++ "/#/jobs/playbook/" ++ toString (42 : Int) },
        0 + 10) := by
  constructor
  · exact (C2_job_cache_policy c2Cache 5 (.ok c2RunningJob) 1234 "http://awx").1.mpr
      ⟨c2CachedJob, 0 + 300, by decide, by decide, by decide⟩
  · have h := (C2_job_cache_policy (Cache.New AWXCacheValue) 0 (.ok c2RunningJob)
      42 "http://awx").2 c2RunningJob rfl (by decide)
    simpa [c2RunningJob] using h

/-! ### C5 -/

/-- Template list with a name/id collision: the identifier "7" is both
the id of the template named "deploy" and the name of template 99. -/
def c5Templates : List JobTemplate :=
  [⟨7, "deploy", "", 1, 1, "site.yml"⟩, ⟨99, "7", "", 1, 1, "other.yml"⟩]

/-- C5 counterexample: the job-launch pipeline resolution (resolveTemplate)
does not match by exact name first: on identifier "7" a template with that
exact name exists (id 99), yet resolution returns the id-matched template
7 named "deploy". -/
theorem C5_pipeline_order_counterexample :
    resolveTemplate c5Templates "7" = .ok (7, "deploy") ∧
    c5Templates.find? (fun t => t.name == "7") =
      some ⟨99, "7", "", 1, 1, "other.yml"⟩ ∧
    ("deploy" : String) ≠ "7" :=
  ⟨by decide, by decide, by decide⟩

/-- C5 (amended): direct resolution (GetJobTemplateByName) matches by
exact name first and only then by parsed numeric id, while the job-launch
pipeline resolution (resolveTemplate) matches by parsed numeric id first
and falls back to exact name (in particular when the identifier is not
numeric). -/
theorem C5_resolution_order (templates : List JobTemplate) (nameOrID : String) :
    (∀ t, templates.find? (fun x => x.name == nameOrID) = some t →
      GetJobTemplateByName templates nameOrID = .ok t) ∧
    (∀ id t, atoi nameOrID = some id →
      templates.find? (fun x => x.id == id) = some t →
      resolveTemplate templates nameOrID = .ok (t.id, t.name)) ∧
    (∀ t, atoi nameOrID = none →
      templates.find? (fun x => x.name == nameOrID) = some t →
      resolveTemplate templates nameOrID = .ok (t.id, t.name)) := by
  refine ⟨?_, ?_, ?_⟩
  · intro t h
    simp [GetJobTemplateByName, h]
  · intro id t hid h
    simp [resolveTemplate, hid, h]
  · intro t hid h
    simp [resolveTemplate, resolveTemplateByName, hid, h]

/-- C5 witness: on the colliding list and identifier "7", the two
resolution paths return different templates, each as the amended claim
says. -/
theorem C5_resolution_order_witness :
    GetJobTemplateByName c5Templates "7" = .ok ⟨99, "7", "", 1, 1, "other.yml"⟩ ∧
    resolveTemplate c5Templates "7" = .ok (7, "deploy") := by
  have h := C5_resolution_order c5Templates "7"
  refine ⟨h.1 ⟨99, "7", "", 1, 1, "other.yml"⟩ (by decide), ?_⟩
  exact h.2.1 7 ⟨7, "deploy", "", 1, 1, "site.yml"⟩ (by decide) (by decide)

/-! ### C7 -/

/-- C7: CreateJobTemplate invalidates the awx:job_templates entry exactly
when it succeeds: after a successful create the next GetJobTemplates
always consults the backend, while a failed create leaves the cache state
unchanged, so a template list still cached is still served without a
fetch. -/
theorem C7_create_template_invalidation (c : Cache AWXCacheValue) :
    (∀ t now backend,
      (GetJobTemplates (CreateJobTemplate c (.ok t)).2 now backend).fetched = true) ∧
    (∀ e, (CreateJobTemplate c (.error e)).2 = c) ∧
    (∀ e ts c1 now backend,
      c.Get "awx:job_templates" now = (some (.templates ts), c1) →
      (GetJobTemplates (CreateJobTemplate c (.error e)).2 now backend).result =
          .ok ts ∧
      (GetJobTemplates (CreateJobTemplate c (.error e)).2 now backend).fetched =
          false) := by
  refine ⟨?_, fun _ => rfl, ?_⟩
  · intro t now backend
    have hdel : assocFind ((c.Delete "awx:job_templates").items)
        "awx:job_templates" = none := assocFind_Delete_self c "awx:job_templates"
    show (GetJobTemplates (c.Delete "awx:job_templates") now backend).fetched = true
    unfold GetJobTemplates
    simp only [Cache.Get, hdel]
    cases backend <;> rfl
  · intro e ts c1 now backend hget
    show (GetJobTemplates c now backend).result = .ok ts ∧
      (GetJobTemplates c now backend).fetched = false
    unfold GetJobTemplates
    rw [hget]
    exact ⟨rfl, rfl⟩

/-- Freshly created template for the C7 witness. -/
def c7Template : JobTemplate := ⟨8, "new", "", 1, 1, "x.yml"⟩

/-- Cache holding a template list under awx:job_templates for the C7
witness. -/
def c7Cache : Cache AWXCacheValue :=
  (Cache.New AWXCacheValue).Set "awx:job_templates" (.templates demoTemplates)
    300 0

/-- C7 witness: after a successful create on the warm cache the next list
call fetches; after a failed create the cache is untouched and the next
list call within TTL is served from cache. -/
theorem C7_create_template_invalidation_witness :
    (GetJobTemplates (CreateJobTemplate c7Cache (.ok c7Template)).2 10
        (.ok demoTemplates)).fetched = true ∧
    (CreateJobTemplate c7Cache (.error "boom")).2 = c7Cache ∧
    (GetJobTemplates (CreateJobTemplate c7Cache (.error "boom")).2 10
        (.ok [])).result = .ok demoTemplates := by
  have h := C7_create_template_invalidation c7Cache
  refine ⟨h.1 c7Template 10 (.ok demoTemplates), h.2.1 "boom", ?_⟩
  exact (h.2.2 "boom" demoTemplates _ 10 (.ok []) rfl).1

/-! ### C8 -/

/-- C8 counterexample: on templates [{id 7, name deploy}] and identifier
"99", the direct-resolution message does not contain the single-quoted
fragment the claim demands, while the launch-pipeline message does not
enumerate templates in the claimed unquoted "name (ID: id)" shape - so no
single resolution error satisfies both halves of the claim. -/
theorem C8_message_format_counterexample :
    GetJobTemplateByName demoTemplates "99" =
      .error "job template \x2799\x27 not found. Available templates: deploy (ID: 7)" ∧
    strContains
      "job template \x2799\x27 not found. Available templates: deploy (ID: 7)"
      "\x27deploy\x27 (ID: 7)" = false ∧
    resolveTemplate demoTemplates "99" =
      .error "template not found. Available templates: \x27deploy\x27 (ID: 7)" ∧
    strContains "template not found. Available templates: \x27deploy\x27 (ID: 7)"
      "deploy (ID: 7)" = false :=
  ⟨by decide, by decide, by decide, by decide⟩

/-- C8 (amended): when no template matches by name or id, direct
resolution fails enumerating every template as "name (ID: id)" comma-
joined, the launch pipeline fails enumerating every template as
"'name' (ID: id)" comma-joined, and both error texts contain
"not found". -/
theorem C8_not_found_messages (templates : List JobTemplate) (nameOrID : String)
    (hname : templates.find? (fun t => t.name == nameOrID) = none)
    (hid : ∀ id, atoi nameOrID = some id →
      templates.find? (fun t => t.id == id) = none) :
    GetJobTemplateByName templates nameOrID =
      .error ("job template \x27" ++ nameOrID ++
        "\x27 not found. Available templates: " ++
        String.intercalate ", "
          (templates.map fun t => t.name ++ " (ID: " ++ toString t.id ++ ")")) ∧
    resolveTemplate templates nameOrID =
      .error ("template not found. Available templates: " ++
        String.intercalate ", "
          (templates.map fun t =>
            "\x27" ++ t.name ++ "\x27 (ID: " ++ toString t.id ++ ")")) ∧
    strContains ("job template \x27" ++ nameOrID ++
        "\x27 not found. Available templates: " ++
        String.intercalate ", "
          (templates.map fun t => t.name ++ " (ID: " ++ toString t.id ++ ")"))
      "not found" = true ∧
    strContains ("template not found. Available templates: " ++
        String.intercalate ", "
          (templates.map fun t =>
            "\x27" ++ t.name ++ "\x27 (ID: " ++ toString t.id ++ ")"))
      "not found" = true := by
  refine ⟨?_, ?_, ?_, ?_⟩
  · unfold GetJobTemplateByName
    rw [hname]
    cases hid2 : atoi nameOrID with
    | none => rfl
    | some id =>
      dsimp only
      rw [hid id hid2]
  · unfold resolveTemplate resolveTemplateByName
    cases hid2 : atoi nameOrID with
    | none =>
      dsimp only
      rw [hname]
    | some id =>
      dsimp only
      rw [hid id hid2, hname]
  · apply strContains_append_of_left
    apply strContains_append_of_right
    decide
  · apply strContains_append_of_left
    decide

/-- C8 witness: the amended claim at the concrete scenario (templates
[{id 7, name deploy}], identifier "99"): the launch-pipeline message and
the not-found containment. -/
theorem C8_not_found_messages_witness :
    resolveTemplate demoTemplates "99" =
      .error ("template not found. Available templates: " ++
        String.intercalate ", "
          (demoTemplates.map fun t =>
            "\x27" ++ t.name ++ "\x27 (ID: " ++ toString t.id ++ ")")) ∧
    strContains ("template not found. Available templates: " ++
        String.intercalate ", "
          (demoTemplates.map fun t =>
            "\x27" ++ t.name ++ "\x27 (ID: " ++ toString t.id ++ ")"))
      "not found" = true := by
  have h := C8_not_found_messages demoTemplates "99" (by decide)
    (fun id hid => by
      have h99 : atoi "99" = some 99 := by decide
      rw [h99] at hid
      cases hid
      decide)
  exact ⟨h.2.1, h.2.2.2⟩

/-! ### C9 -/

/-- Argument bag of a create_job_template call whose verbosity is 7. -/
def c9Args : String → Option String := fun k =>
  if k == "name" then some "t"
  else if k == "inventory" then some "1"
  else if k == "project" then some "2"
  else if k == "playbook" then some "site.yml"
  else if k == "verbosity" then some "7"
  else none

/-- C9 counterexample: with verbosity 7 - an integer outside 0..5 - the
handler coercion succeeds and hands the arguments, verbosity 7 included,
to the service facade instead of failing with a validation error. -/
theorem C9_verbosity_counterexample :
    handlerCreateJobTemplate c9Args =
      .ok ⟨"t", 1, 2, "site.yml", "", "run", 7⟩ ∧
    ¬ ((0 : Int) ≤ 7 ∧ (7 : Int) ≤ 5) :=
  ⟨by decide, by decide⟩

/-- C9 (amended): the handler applies no range check to verbosity: any
integer value that Atoi parses, also one outside 0..5, is stored
unchanged and the call reaches the service facade. -/
theorem C9_verbosity_passthrough (get : String → Option String)
    (name inventoryStr projectStr playbook vs : String)
    (inventory project v : Int)
    (h1 : get "name" = some name)
    (h2 : get "inventory" = some inventoryStr)
    (h3 : atoi inventoryStr = some inventory)
    (h4 : get "project" = some projectStr)
    (h5 : atoi projectStr = some project)
    (h6 : get "playbook" = some playbook)
    (h7 : (get "verbosity").getD "0" = vs)
    (h8 : atoi vs = some v) :
    handlerCreateJobTemplate get =
      .ok ⟨name, inventory, project, playbook, (get "description").getD "",
           (get "job_type").getD "run", v⟩ := by
  simp only [handlerCreateJobTemplate, h1, h2, h3, h4, h5, h6, h7, h8]

/-- C9 witness: the amended claim applied to the verbosity-7 call. -/
theorem C9_verbosity_passthrough_witness :
    handlerCreateJobTemplate c9Args =
      .ok ⟨"t", 1, 2, "site.yml", "", "run", 7⟩ := by
  have h := C9_verbosity_passthrough c9Args "t" "1" "2" "site.yml" "7" 1 2 7
    (by decide) (by decide) (by decide) (by decide) (by decide) (by decide)
    (by decide) (by decide)
  exact h

end Autosphere
